import Mathlib

/-!
Shallow embedding of `src/app.py` (the Mac Studio MCP server): the JSON data
model, the tool-invocation layer `handle_tool_call`, the JSON-RPC dispatcher
`process_mcp_message`, and the `POST /mcp` route `mcp_handler`.

The remote execution endpoint (`call_mac` / `run_async` in the source) is an
external collaborator; it is modelled as a function parameter
`remote : RemoteCall → Except String Json`.  A `.error e` result stands for a
Python exception raised by the transport or by `response.json()` (timeout,
connection error, non-JSON body), with `e` the exception's `str`.  Every
remote call a handler issues is recorded, in order, in the second component
of its result, so theorems can state which commands were sent and that a
branch never contacts the remote endpoint.
-/

/-- A parsed JSON value as Python's `json` module represents it (`None`,
`bool`, `int`, `str`, `list`, `dict`).  Numbers are modelled as integers: the
server only ever inspects `returncode`, an integral field. -/
inductive Json where
  | null : Json
  | bool (b : Bool) : Json
  | num (n : Int) : Json
  | str (s : String) : Json
  | arr (elements : List Json) : Json
  | obj (fields : List (String × Json)) : Json

/-- Key lookup in the association list of a JSON object (Python dict lookup;
keys of a parsed object are distinct). -/
def lookupField : List (String × Json) → String → Option Json
  | [], _ => none
  | (k, v) :: rest, key => if k = key then some v else lookupField rest key

/-- Pure observation for stating theorems: the value of a key of a JSON
object, `none` when the key is absent or the value is not an object. -/
def Json.objGet? : Json → String → Option Json
  | .obj fields, key => lookupField fields key
  | _, _ => none

/-- Python truthiness of a parsed JSON value (`if data:` / `if lines:`). -/
def Json.truthy : Json → Bool
  | .null => false
  | .bool b => b
  | .num n => n != 0
  | .str s => s != ""
  | .arr elements => !elements.isEmpty
  | .obj fields => !fields.isEmpty

/-- Python `==` between a parsed JSON value and a string literal: true
exactly when the value is that string. -/
def Json.isStr : Json → String → Bool
  | .str t, s => t == s
  | _, _ => false

/-- Python `x.get(key, default)`: total on dicts, an `AttributeError` on any
other value. -/
def Json.pyGet : Json → String → Json → Except String Json
  | .obj fields, key, dflt => .ok ((lookupField fields key).getD dflt)
  | _, _, _ => .error "AttributeError: no attribute get"

/-- Python `x[key]`: a `KeyError` (whose `str` is the quoted key) when the
key is missing, a `TypeError` when the value is not a dict. -/
def Json.pyIndex : Json → String → Except String Json
  | .obj fields, key =>
      match lookupField fields key with
      | some v => .ok v
      | none => .error ("'" ++ key ++ "'")
  | _, _ => .error "TypeError: value is not subscriptable"

/-- Python `x == n` for an integer literal `n`: true on the equal integer and
on the boolean of that value (Python bools are ints), false on every other
JSON value. -/
def Json.pyEqInt : Json → Int → Bool
  | .num m, n => m == n
  | .bool b, n => (if b then (1 : Int) else 0) == n
  | _, _ => false

mutual

/-- Python `repr` of a parsed JSON value (`None` / `True` / `False`, decimal
integers, quoted strings, bracketed containers).  The source only ever
displays this text (`str(result)` fallbacks), never inspects it. -/
def pyRepr : Json → String
  | .null => "None"
  | .bool true => "True"
  | .bool false => "False"
  | .num n => toString n
  | .str s => "'" ++ s ++ "'"
  | .arr elements => "[" ++ pyReprElems elements ++ "]"
  | .obj fields => "\x7b" ++ pyReprFields fields ++ "\x7d"

/-- Comma-separated `repr`s of the elements of a Python list. -/
def pyReprElems : List Json → String
  | [] => ""
  | [x] => pyRepr x
  | x :: y :: rest => pyRepr x ++ ", " ++ pyReprElems (y :: rest)

/-- Comma-separated `key: value` pairs of the `repr` of a Python dict. -/
def pyReprFields : List (String × Json) → String
  | [] => ""
  | [(k, v)] => "'" ++ k ++ "': " ++ pyRepr v
  | (k, v) :: p :: rest => "'" ++ k ++ "': " ++ pyRepr v ++ ", " ++ pyReprFields (p :: rest)

end

/-- Python `str` as an f-string interpolates a value: the string itself for
strings, the `repr` rendering otherwise. -/
def pyStr : Json → String
  | .str s => s
  | j => pyRepr j

mutual

/-- Models `json.dumps(result, indent=2)` from the source: a JSON rendering
of the value.  The pretty-printing whitespace of the Python original is not
reproduced; no claim inspects this text. -/
def jsonDumps : Json → String
  | .null => "null"
  | .bool true => "true"
  | .bool false => "false"
  | .num n => toString n
  | .str s => "\"" ++ s ++ "\""
  | .arr elements => "[" ++ jsonDumpsElems elements ++ "]"
  | .obj fields => "\x7b" ++ jsonDumpsFields fields ++ "\x7d"

/-- Comma-separated serializations of the elements of a JSON array. -/
def jsonDumpsElems : List Json → String
  | [] => ""
  | [x] => jsonDumps x
  | x :: y :: rest => jsonDumps x ++ ", " ++ jsonDumpsElems (y :: rest)

/-- Comma-separated `"key": value` pairs of a JSON object. -/
def jsonDumpsFields : List (String × Json) → String
  | [] => ""
  | [(k, v)] => "\"" ++ k ++ "\": " ++ jsonDumps v
  | (k, v) :: p :: rest => "\"" ++ k ++ "\": " ++ jsonDumps v ++ ", " ++ jsonDumpsFields (p :: rest)

end

/-- Models `content.replace("'", "'\\''")` from `write_file`, character by
character: every single quote becomes quote, backslash, quote, quote. -/
def escChars : List Char → List Char
  | [] => []
  | c :: rest =>
      if c = '\'' then '\'' :: '\\' :: '\'' :: '\'' :: escChars rest
      else c :: escChars rest

/-- The shell escaping of `write_file`'s content argument. -/
def escapeSingleQuotes (s : String) : String := String.mk (escChars s.data)

/-- The resolved remote call `call_mac(endpoint, method, data)` issues:
target path, HTTP verb, optional JSON payload. -/
structure RemoteCall where
  endpoint : String
  method : String
  data : Option Json

/-- The remote execution endpoint as the handlers see it: parsed JSON on
success, a transport/decoding exception message otherwise. -/
abbrev Remote := RemoteCall → Except String Json

/-- A POST to the remote `/run` endpoint carrying the given command value. -/
def runCall (command : Json) : RemoteCall :=
  { endpoint := "/run", method := "POST", data := some (.obj [("command", command)]) }

/-- The POST to the remote `/ssh` endpoint `ssh_to_pi` issues. -/
def sshCall (command host user : Json) : RemoteCall :=
  { endpoint := "/ssh", method := "POST",
    data := some (.obj [("command", command), ("host", host), ("user", user)]) }

/-- The GET to the remote `/health` endpoint `health_check` issues. -/
def healthCall : RemoteCall :=
  { endpoint := "/health", method := "GET", data := none }

/-- The success envelope a handler returns: one text content item and no
`isError` key. -/
def toolOk (text : Json) : Json :=
  .obj [("content", .arr [.obj [("type", .str "text"), ("text", text)]])]

/-- The failure envelope: one text content item plus `isError = True`. -/
def toolErr (text : String) : Json :=
  .obj [("content", .arr [.obj [("type", .str "text"), ("text", .str text)]]),
        ("isError", .bool true)]

/-- The static tool catalog `TOOLS` of the source, transcribed verbatim. -/
def TOOLS : Json := .arr [
  .obj [
    ("name", .str "run_command"),
    ("description", .str "Execute a shell command on Mac Studio. Returns stdout, stderr, and return code."),
    ("inputSchema", .obj [
      ("type", .str "object"),
      ("properties", .obj [
        ("command", .obj [
          ("type", .str "string"),
          ("description", .str "Shell command to execute (e.g., 'ls -la', 'brew list', 'python3 script.py')")])]),
      ("required", .arr [.str "command"])])],
  .obj [
    ("name", .str "ssh_to_pi"),
    ("description", .str "Execute a command on Raspberry Pi via SSH from Mac Studio"),
    ("inputSchema", .obj [
      ("type", .str "object"),
      ("properties", .obj [
        ("command", .obj [
          ("type", .str "string"),
          ("description", .str "Command to run on the Pi")]),
        ("host", .obj [
          ("type", .str "string"),
          ("description", .str "Pi IP address (default: 192.168.25.225)")]),
        ("user", .obj [
          ("type", .str "string"),
          ("description", .str "SSH user (default: jstewartrr)")])]),
      ("required", .arr [.str "command"])])],
  .obj [
    ("name", .str "health_check"),
    ("description", .str "Check if Mac Studio is reachable and get system info"),
    ("inputSchema", .obj [
      ("type", .str "object"),
      ("properties", .obj []),
      ("required", .arr [])])],
  .obj [
    ("name", .str "list_files"),
    ("description", .str "List files in a directory on Mac Studio"),
    ("inputSchema", .obj [
      ("type", .str "object"),
      ("properties", .obj [
        ("path", .obj [
          ("type", .str "string"),
          ("description", .str "Directory path (default: home directory)")])]),
      ("required", .arr [])])],
  .obj [
    ("name", .str "read_file"),
    ("description", .str "Read contents of a file on Mac Studio"),
    ("inputSchema", .obj [
      ("type", .str "object"),
      ("properties", .obj [
        ("path", .obj [
          ("type", .str "string"),
          ("description", .str "Full path to file")]),
        ("lines", .obj [
          ("type", .str "integer"),
          ("description", .str "Number of lines to read (default: all). Use negative for tail.")])]),
      ("required", .arr [.str "path"])])],
  .obj [
    ("name", .str "write_file"),
    ("description", .str "Write content to a file on Mac Studio"),
    ("inputSchema", .obj [
      ("type", .str "object"),
      ("properties", .obj [
        ("path", .obj [
          ("type", .str "string"),
          ("description", .str "Full path to file")]),
        ("content", .obj [
          ("type", .str "string"),
          ("description", .str "Content to write")]),
        ("append", .obj [
          ("type", .str "boolean"),
          ("description", .str "Append instead of overwrite (default: false)")])]),
      ("required", .arr [.str "path", .str "content"])])],
  .obj [
    ("name", .str "get_system_info"),
    ("description", .str "Get Mac Studio system information (CPU, memory, disk, processes)"),
    ("inputSchema", .obj [
      ("type", .str "object"),
      ("properties", .obj []),
      ("required", .arr [])])]]

/-- The fixed diagnostic command of `get_system_info`.  In the Python source
it is a triple-quoted string whose backslash-newline pairs are line
continuations, so its value is this single line. -/
def systemInfoCmd : String :=
  "echo '=== HOSTNAME ===' && hostname && echo '=== UPTIME ===' && uptime && echo '=== CPU ===' && sysctl -n machdep.cpu.brand_string && echo '=== MEMORY ===' && vm_stat | head -5 && echo '=== DISK ===' && df -h / && echo '=== TOP PROCESSES ===' && ps aux | head -10"

/-- `result.get("stdout", result.get("error", str(result)))` — the fallback
text chain of `list_files`, `read_file` and `get_system_info` (Python
evaluates the inner `get` first). -/
def stdoutFallback (result : Json) : Except String Json :=
  match result.pyGet "error" (.str (pyStr result)) with
  | .error e => .error e
  | .ok fallback => result.pyGet "stdout" fallback

/-- The command `read_file` synthesizes once `lines` tested truthy at
`if lines:`: `tail -n abs(lines)` when `lines < 0`, else `head -n lines`.
A truthy non-number `lines` raises a `TypeError` at the comparison
(Python 3); a bool is an int there (`True < 0` is false, `str(True)` is
`True`). -/
def readFileCmd (path lines : Json) : Except String String :=
  match lines with
  | .num n =>
      .ok (if n < 0 then "tail -n " ++ toString n.natAbs ++ " '" ++ pyStr path ++ "'"
           else "head -n " ++ toString n ++ " '" ++ pyStr path ++ "'")
  | .bool b => .ok ("head -n " ++ (if b then "True" else "False") ++ " '" ++ pyStr path ++ "'")
  | _ => .error "TypeError: not supported between instances of this type and int"

/-- `f"echo '{escaped}' {op} '{path}'"` — the shell command `write_file`
builds. -/
def writeCmd (escaped op : String) (path : Json) : String :=
  "echo '" ++ escaped ++ "' " ++ op ++ " '" ++ pyStr path ++ "'"

/-- The body of `handle_tool_call` — the code inside its `try`.  `.error e`
models a Python exception with `str` `e` escaping to the `except` clause
(missing required argument, transport failure, a non-dict where the code
calls `.get`/`[]`); the list records every remote call issued, in order. -/
def handle_tool_call_body (remote : Remote) (name arguments : Json) :
    Except String Json × List RemoteCall :=
  if name.isStr "run_command" then
    match arguments.pyIndex "command" with
    | .error e => (.error e, [])
    | .ok command =>
      ((match remote (runCall command) with
        | .error e => .error e
        | .ok result => .ok (toolOk (.str (jsonDumps result)))),
       [runCall command])
  else if name.isStr "ssh_to_pi" then
    match arguments.pyIndex "command" with
    | .error e => (.error e, [])
    | .ok command =>
      match arguments.pyGet "host" (.str "192.168.25.225") with
      | .error e => (.error e, [])
      | .ok host =>
        match arguments.pyGet "user" (.str "jstewartrr") with
        | .error e => (.error e, [])
        | .ok user =>
          ((match remote (sshCall command host user) with
            | .error e => .error e
            | .ok result => .ok (toolOk (.str (jsonDumps result)))),
           [sshCall command host user])
  else if name.isStr "health_check" then
    ((match remote healthCall with
      | .error e => .error e
      | .ok result => .ok (toolOk (.str (jsonDumps result)))),
     [healthCall])
  else if name.isStr "list_files" then
    match arguments.pyGet "path" (.str "~") with
    | .error e => (.error e, [])
    | .ok path =>
      ((match remote (runCall (.str ("ls -la " ++ pyStr path))) with
        | .error e => .error e
        | .ok result =>
          match stdoutFallback result with
          | .error e => .error e
          | .ok text => .ok (toolOk text)),
       [runCall (.str ("ls -la " ++ pyStr path))])
  else if name.isStr "read_file" then
    match arguments.pyIndex "path" with
    | .error e => (.error e, [])
    | .ok path =>
      match arguments.pyGet "lines" .null with
      | .error e => (.error e, [])
      | .ok lines =>
        match (if lines.truthy then readFileCmd path lines
               else .ok ("cat '" ++ pyStr path ++ "'")) with
        | .error e => (.error e, [])
        | .ok cmd =>
          ((match remote (runCall (.str cmd)) with
            | .error e => .error e
            | .ok result =>
              match stdoutFallback result with
              | .error e => .error e
              | .ok text => .ok (toolOk text)),
           [runCall (.str cmd)])
  else if name.isStr "write_file" then
    match arguments.pyIndex "path" with
    | .error e => (.error e, [])
    | .ok path =>
      match arguments.pyIndex "content" with
      | .error e => (.error e, [])
      | .ok content =>
        match arguments.pyGet "append" (.bool false) with
        | .error e => (.error e, [])
        | .ok append =>
          match content with
          | .str contentStr =>
            ((match remote (runCall (.str (writeCmd (escapeSingleQuotes contentStr)
                  (if append.truthy then ">>" else ">") path))) with
              | .error e => .error e
              | .ok result =>
                match result.pyGet "returncode" (.num 1) with
                | .error e => .error e
                | .ok rc =>
                  if rc.pyEqInt 0 then
                    .ok (toolOk (.str ("Successfully wrote to " ++ pyStr path)))
                  else
                    match result.pyGet "stderr" (.str (pyStr result)) with
                    | .error e => .error e
                    | .ok stderrText => .ok (toolErr ("Error: " ++ pyStr stderrText))),
             [runCall (.str (writeCmd (escapeSingleQuotes contentStr)
                (if append.truthy then ">>" else ">") path))])
          | _ => (.error "AttributeError: no attribute replace", [])
  else if name.isStr "get_system_info" then
    ((match remote (runCall (.str systemInfoCmd)) with
      | .error e => .error e
      | .ok result =>
        match stdoutFallback result with
        | .error e => .error e
        | .ok text => .ok (toolOk text)),
     [runCall (.str systemInfoCmd)])
  else
    (.ok (toolErr ("Unknown tool: " ++ pyStr name)), [])

/-- `handle_tool_call(name, arguments)` with its `try`/`except`: an exception
anywhere in the body becomes a ToolCallResult with `isError = True` and text
`Error: str(e)`; the function itself never raises. -/
def handle_tool_call (remote : Remote) (name arguments : Json) :
    Json × List RemoteCall :=
  ((match (handle_tool_call_body remote name arguments).fst with
    | .ok result => result
    | .error e => toolErr ("Error: " ++ e)),
   (handle_tool_call_body remote name arguments).snd)

/-- Models `process_mcp_message(data)`, the JSON-RPC dispatcher.  `.error e`
is a Python exception escaping to `mcp_handler`'s `except` (raised when
`data` or `params` is not a dict); the list records the remote calls made. -/
def process_mcp_message (remote : Remote) (data : Json) :
    Except String Json × List RemoteCall :=
  match data.pyGet "method" (.str "") with
  | .error e => (.error e, [])
  | .ok method =>
    match data.pyGet "params" (.obj []) with
    | .error e => (.error e, [])
    | .ok params =>
      match data.pyGet "id" (.num 1) with
      | .error e => (.error e, [])
      | .ok request_id =>
        if method.isStr "initialize" then
          (.ok (.obj [("jsonrpc", .str "2.0"), ("id", request_id),
            ("result", .obj [
              ("protocolVersion", .str "2024-11-05"),
              ("capabilities", .obj [("tools", .obj [("listChanged", .bool true)])]),
              ("serverInfo", .obj [("name", .str "mac-studio-mcp"),
                                   ("version", .str "1.0.0")])])]), [])
        else if method.isStr "tools/list" then
          (.ok (.obj [("jsonrpc", .str "2.0"), ("id", request_id),
            ("result", .obj [("tools", TOOLS)])]), [])
        else if method.isStr "tools/call" then
          match params.pyGet "name" (.str "") with
          | .error e => (.error e, [])
          | .ok tool_name =>
            match params.pyGet "arguments" (.obj []) with
            | .error e => (.error e, [])
            | .ok arguments =>
              (.ok (.obj [("jsonrpc", .str "2.0"), ("id", request_id),
                          ("result", (handle_tool_call remote tool_name arguments).fst)]),
               (handle_tool_call remote tool_name arguments).snd)
        else if method.isStr "notifications/initialized" then
          (.ok (.obj [("jsonrpc", .str "2.0"), ("id", request_id), ("result", .obj [])]), [])
        else
          (.ok (.obj [("jsonrpc", .str "2.0"), ("id", request_id),
            ("error", .obj [("code", .num (-32601)),
                            ("message", .str ("Method not found: " ++ pyStr method))])]), [])

/-- The outcome of Flask's `request.get_json()` on the request body of a
`POST /mcp` call with an `application/json` content type: `.invalid` when the
body is not valid JSON (the call raises a `BadRequest`), `.parsed j` when the
body parses to `j`. -/
inductive BodyParse where
  | invalid : BodyParse
  | parsed (data : Json) : BodyParse

/-- `str` of the `BadRequest` exception `request.get_json()` (default
`silent=False`) raises on a body that does not parse as JSON. -/
def parseFailureMessage : String :=
  "400 Bad Request: Failed to decode JSON object: Expecting value: line 1 column 1 (char 0)"

/-- Flask `request.get_json()`: raises on a body that is not valid JSON,
returns the parsed value otherwise. -/
def get_json : BodyParse → Except String Json
  | .invalid => .error parseFailureMessage
  | .parsed data => .ok data

/-- The 500 response the `except` clause of `mcp_handler` builds: note the
hard-coded `id: 1`. -/
def internalError (e : String) : Json :=
  .obj [("jsonrpc", .str "2.0"), ("id", .num 1),
        ("error", .obj [("code", .num (-32603)), ("message", .str e)])]

/-- Models the `POST /mcp` route `mcp_handler`: HTTP status code and JSON
response body. -/
def mcp_handler (remote : Remote) (body : BodyParse) : Nat × Json :=
  match get_json body with
  | .error e => (500, internalError e)
  | .ok data =>
    if data.truthy then
      match (process_mcp_message remote data).fst with
      | .ok response => (200, response)
      | .error e => (500, internalError e)
    else
      (400, .obj [("jsonrpc", .str "2.0"), ("id", .null),
                  ("error", .obj [("code", .num (-32700)), ("message", .str "Parse error")])])

/-- A remote endpoint that is unreachable: every call raises a transport
error. -/
def remoteDown : Remote := fun _ => .error "All connection attempts failed"

/-- A remote endpoint whose every reply reports a failed command:
returncode 1, diagnostic text on stderr. -/
def remoteFailing : Remote := fun _ =>
  .ok (.obj [("stdout", .str ""), ("stderr", .str "boom"), ("returncode", .num 1)])

/-- A remote endpoint whose every reply reports success: returncode 0. -/
def remoteSucceeding : Remote := fun _ =>
  .ok (.obj [("stdout", .str "ok"), ("stderr", .str ""), ("returncode", .num 0)])

/-- Dispatch of a `tools/call` request whose params is a mapping: the request
id is echoed (default 1), the tool result — whatever it is — is wrapped in a
`result` field, and the calls are exactly those of `handle_tool_call`. -/
theorem tools_call_dispatch (remote : Remote) (fs ps : List (String × Json))
    (hm : lookupField fs "method" = some (.str "tools/call"))
    (hp : lookupField fs "params" = some (.obj ps)) :
    process_mcp_message remote (.obj fs)
      = (.ok (.obj [("jsonrpc", .str "2.0"),
                    ("id", (lookupField fs "id").getD (.num 1)),
                    ("result", (handle_tool_call remote ((lookupField ps "name").getD (.str ""))
                                  ((lookupField ps "arguments").getD (.obj []))).fst)]),
         (handle_tool_call remote ((lookupField ps "name").getD (.str ""))
            ((lookupField ps "arguments").getD (.obj []))).snd) := by
  unfold process_mcp_message
  simp [Json.pyGet, hm, hp, Json.isStr]

/-- Claim C1 fails on the code: a `run_command` call whose remote reply
reports failure (returncode 1) comes back without `isError` — the reply is
pretty-printed as success text and the returncode is never inspected. -/
theorem C1_counterexample :
    remoteFailing (runCall (.str "ls"))
      = .ok (.obj [("stdout", .str ""), ("stderr", .str "boom"), ("returncode", .num 1)]) ∧
    (handle_tool_call remoteFailing (.str "run_command") (.obj [("command", .str "ls")])).snd
      = [runCall (.str "ls")] ∧
    (handle_tool_call remoteFailing (.str "run_command")
        (.obj [("command", .str "ls")])).fst.objGet? "isError" = none :=
  ⟨rfl, rfl, rfl⟩

/-- Claim C1 amended: `isError` marks only local failure (an exception, an
unknown tool, or `write_file` with non-zero returncode).  For run_command,
ssh_to_pi, health_check, list_files, read_file and get_system_info every
transport-successful remote reply yields a result without `isError`,
whatever its returncode; a transport exception does set it. -/
theorem C1_isError_amended (remote : Remote) :
    (∀ (c : String) (r : Json), remote (runCall (.str c)) = .ok r →
      (handle_tool_call remote (.str "run_command")
          (.obj [("command", .str c)])).fst.objGet? "isError" = none) ∧
    (∀ (c hh uu : String) (r : Json), remote (sshCall (.str c) (.str hh) (.str uu)) = .ok r →
      (handle_tool_call remote (.str "ssh_to_pi")
          (.obj [("command", .str c), ("host", .str hh), ("user", .str uu)])).fst.objGet? "isError"
        = none) ∧
    (∀ r : Json, remote healthCall = .ok r →
      (handle_tool_call remote (.str "health_check") (.obj [])).fst.objGet? "isError" = none) ∧
    (∀ (p : String) (rfields : List (String × Json)),
      remote (runCall (.str ("ls -la " ++ p))) = .ok (.obj rfields) →
      (handle_tool_call remote (.str "list_files")
          (.obj [("path", .str p)])).fst.objGet? "isError" = none) ∧
    (∀ (p : String) (rfields : List (String × Json)),
      remote (runCall (.str ("cat '" ++ p ++ "'"))) = .ok (.obj rfields) →
      (handle_tool_call remote (.str "read_file")
          (.obj [("path", .str p)])).fst.objGet? "isError" = none) ∧
    (∀ rfields : List (String × Json),
      remote (runCall (.str systemInfoCmd)) = .ok (.obj rfields) →
      (handle_tool_call remote (.str "get_system_info") (.obj [])).fst.objGet? "isError" = none) ∧
    (∀ (c e : String), remote (runCall (.str c)) = .error e →
      (handle_tool_call remote (.str "run_command") (.obj [("command", .str c)])).fst
        = toolErr ("Error: " ++ e)) := by
  refine ⟨?_, ?_, ?_, ?_, ?_, ?_, ?_⟩
  · intro c r h
    unfold handle_tool_call handle_tool_call_body
    simp [Json.isStr, Json.pyIndex, lookupField, h, toolOk, Json.objGet?]
  · intro c hh uu r h
    unfold handle_tool_call handle_tool_call_body
    simp [Json.isStr, Json.pyIndex, Json.pyGet, lookupField, h, toolOk, Json.objGet?]
  · intro r h
    unfold handle_tool_call handle_tool_call_body
    simp [Json.isStr, h, toolOk, Json.objGet?, lookupField]
  · intro p rfields h
    unfold handle_tool_call handle_tool_call_body
    simp [Json.isStr, Json.pyGet, lookupField, pyStr, h, stdoutFallback, toolOk, Json.objGet?]
  · intro p rfields h
    unfold handle_tool_call handle_tool_call_body
    simp [Json.isStr, Json.pyIndex, Json.pyGet, lookupField, pyStr, Json.truthy, h,
          stdoutFallback, toolOk, Json.objGet?]
  · intro rfields h
    unfold handle_tool_call handle_tool_call_body
    simp [Json.isStr, h, stdoutFallback, Json.pyGet, lookupField, toolOk, Json.objGet?]
  · intro c e h
    unfold handle_tool_call handle_tool_call_body
    simp [Json.isStr, Json.pyIndex, lookupField, h]

/-- Witness for the amended C1 at a concrete input: a remote reply with
returncode 1 still yields no `isError` for run_command. -/
theorem C1_isError_amended_witness :
    (handle_tool_call remoteFailing (.str "run_command")
        (.obj [("command", .str "ls")])).fst.objGet? "isError" = none :=
  (C1_isError_amended remoteFailing).1 "ls"
    (.obj [("stdout", .str ""), ("stderr", .str "boom"), ("returncode", .num 1)]) rfl

/-- Claim C2 against the code: a `POST /mcp` body that is not valid JSON
makes `request.get_json()` raise `BadRequest`, the handler's `except` clause
catches it, and the route answers HTTP 500 with JSON-RPC code -32603 — not
the specified 400 / -32700.  The 400 / -32700 "Parse error" branch fires
only when the body parses to a falsy JSON value such as `{}`. -/
theorem C2_parse_failure_behavior :
    mcp_handler remoteDown BodyParse.invalid = (500, internalError parseFailureMessage) ∧
    (internalError parseFailureMessage).objGet? "error"
      = some (.obj [("code", .num (-32603)), ("message", .str parseFailureMessage)]) ∧
    mcp_handler remoteDown (.parsed (.obj []))
      = (400, .obj [("jsonrpc", .str "2.0"), ("id", .null),
          ("error", .obj [("code", .num (-32700)), ("message", .str "Parse error")])]) :=
  ⟨rfl, rfl, rfl⟩

/-- Claim C3 fails on the code: a request with id 7 whose handling raises an
internal fault (params is the number 5, so `params.get` raises) is answered
with the hard-coded id 1 of the `except` clause, not with the request's id. -/
theorem C3_counterexample :
    Json.objGet? (.obj [("id", .num 7), ("method", .str "tools/call"), ("params", .num 5)]) "id"
      = some (.num 7) ∧
    mcp_handler remoteDown
        (.parsed (.obj [("id", .num 7), ("method", .str "tools/call"), ("params", .num 5)]))
      = (500, internalError "AttributeError: no attribute get") ∧
    (internalError "AttributeError: no attribute get").objGet? "id" = some (.num 1) :=
  ⟨rfl, rfl, rfl⟩

/-- Claim C3 amended: the response id equals the request id (default 1 when
absent) for every request `process_mcp_message` completes without raising;
when handling raises an internal fault, the 500 response carries the
constant id 1 whatever the request's id was. -/
theorem C3_id_echo_amended (remote : Remote) (data : Json) :
    (∀ resp calls, process_mcp_message remote data = (.ok resp, calls) →
      resp.objGet? "id" = some ((data.objGet? "id").getD (.num 1))) ∧
    (∀ e calls, data.truthy = true →
      process_mcp_message remote data = (.error e, calls) →
      (mcp_handler remote (.parsed data)).snd.objGet? "id" = some (.num 1)) := by
  constructor
  · intro resp calls h
    unfold process_mcp_message at h
    rcases data with _ | b | n | s | elements | fields
    · simp [Json.pyGet] at h
    · simp [Json.pyGet] at h
    · simp [Json.pyGet] at h
    · simp [Json.pyGet] at h
    · simp [Json.pyGet] at h
    · simp only [Json.pyGet] at h
      rcases hpar : (lookupField fields "params").getD (.obj [])
          with _ | pb | pn | pstr | pel | pfields <;>
        rw [hpar] at h <;> simp only [] at h <;>
        (try split at h) <;> (try split at h) <;> (try split at h) <;> (try split at h) <;>
        injection h with h1 h2
      all_goals first
        | exact Except.noConfusion h1
        | (injection h1 with h1; subst h1; rfl)
  · intro e calls hd hproc
    simp [mcp_handler, get_json, hd, hproc, internalError, Json.objGet?, lookupField]

/-- Witness for the amended C3 at a concrete input: an unknown-method request
with id 7 is answered with id 7. -/
theorem C3_id_echo_amended_witness :
    Json.objGet? (.obj [("jsonrpc", .str "2.0"), ("id", .num 7),
        ("error", .obj [("code", .num (-32601)), ("message", .str "Method not found: nope")])]) "id"
      = some (.num 7) :=
  (C3_id_echo_amended remoteDown (.obj [("id", .num 7), ("method", .str "nope")])).1
    (.obj [("jsonrpc", .str "2.0"), ("id", .num 7),
        ("error", .obj [("code", .num (-32601)), ("message", .str "Method not found: nope")])])
    [] rfl

/-- Claim C4: `read_file` sends `tail -n abs(lines) '<path>'` to `/run` when
`lines` is negative, `head -n lines '<path>'` when positive, and
`cat '<path>'` when `lines` is absent. -/
theorem C4_read_file_commands (remote : Remote) (p : String) (n : Int) :
    (n < 0 → (handle_tool_call remote (.str "read_file")
        (.obj [("path", .str p), ("lines", .num n)])).snd
      = [runCall (.str ("tail -n " ++ toString n.natAbs ++ " '" ++ p ++ "'"))]) ∧
    (0 < n → (handle_tool_call remote (.str "read_file")
        (.obj [("path", .str p), ("lines", .num n)])).snd
      = [runCall (.str ("head -n " ++ toString n ++ " '" ++ p ++ "'"))]) ∧
    (handle_tool_call remote (.str "read_file") (.obj [("path", .str p)])).snd
      = [runCall (.str ("cat '" ++ p ++ "'"))] := by
  refine ⟨?_, ?_, rfl⟩
  · intro hn
    have h0 : Json.truthy (.num n) = true := by simp [Json.truthy]; omega
    unfold handle_tool_call handle_tool_call_body
    simp [Json.isStr, Json.pyIndex, Json.pyGet, lookupField, h0, readFileCmd, if_pos hn, pyStr]
  · intro hn
    have h0 : Json.truthy (.num n) = true := by simp [Json.truthy]; omega
    have hn' : ¬ n < 0 := by omega
    unfold handle_tool_call handle_tool_call_body
    simp [Json.isStr, Json.pyIndex, Json.pyGet, lookupField, h0, readFileCmd, hn', pyStr]

/-- Witness for C4 at the spec's example: path `/tmp/x`, lines -5 yield
exactly `tail -n 5 '/tmp/x'`. -/
theorem C4_read_file_commands_witness :
    (handle_tool_call remoteDown (.str "read_file")
        (.obj [("path", .str "/tmp/x"), ("lines", .num (-5))])).snd
      = [runCall (.str "tail -n 5 '/tmp/x'")] :=
  (C4_read_file_commands remoteDown "/tmp/x" (-5)).1 (by decide)

/-- Claim C5: `write_file` escapes every single quote of the content as
`'\''`, sends `echo '<escaped>' > '<path>'` (`>>` when append is true) to
`/run`, answers exactly `Successfully wrote to <path>` with no `isError` iff
the remote returncode equals 0, and otherwise sets `isError` with text from
the remote's stderr, falling back to the stringified reply. -/
theorem C5_write_file (remote : Remote) (p c : String) :
    ((handle_tool_call remote (.str "write_file")
        (.obj [("path", .str p), ("content", .str c)])).snd
      = [runCall (.str (writeCmd (escapeSingleQuotes c) ">" (.str p)))]) ∧
    ((handle_tool_call remote (.str "write_file")
        (.obj [("path", .str p), ("content", .str c), ("append", .bool true)])).snd
      = [runCall (.str (writeCmd (escapeSingleQuotes c) ">>" (.str p)))]) ∧
    (∀ rfields : List (String × Json),
      remote (runCall (.str (writeCmd (escapeSingleQuotes c) ">" (.str p)))) = .ok (.obj rfields) →
      ((handle_tool_call remote (.str "write_file")
          (.obj [("path", .str p), ("content", .str c)])).fst
        = toolOk (.str ("Successfully wrote to " ++ p))
        ↔ ((lookupField rfields "returncode").getD (.num 1)).pyEqInt 0 = true) ∧
      (((lookupField rfields "returncode").getD (.num 1)).pyEqInt 0 = false →
        (handle_tool_call remote (.str "write_file")
            (.obj [("path", .str p), ("content", .str c)])).fst
          = toolErr ("Error: "
              ++ pyStr ((lookupField rfields "stderr").getD (.str (pyStr (.obj rfields))))))) := by
  refine ⟨rfl, rfl, ?_⟩
  intro rfields h
  rcases hrc : ((lookupField rfields "returncode").getD (.num 1)).pyEqInt 0 with _ | _
  all_goals (
    unfold handle_tool_call handle_tool_call_body
    simp [Json.isStr, Json.pyIndex, Json.pyGet, lookupField, Json.truthy, h, hrc,
          toolOk, toolErr, pyStr])

/-- Witness for C5 at the spec's example: content `it's ok` is escaped to
`it'\''s ok`, the command is `echo 'it'\''s ok' > '/tmp/x'`, and a remote
returncode 0 yields exactly `Successfully wrote to /tmp/x`. -/
theorem C5_write_file_witness :
    ((handle_tool_call remoteSucceeding (.str "write_file")
        (.obj [("path", .str "/tmp/x"), ("content", .str "it's ok")])).snd
      = [runCall (.str "echo 'it'\\''s ok' > '/tmp/x'")]) ∧
    ((handle_tool_call remoteSucceeding (.str "write_file")
        (.obj [("path", .str "/tmp/x"), ("content", .str "it's ok")])).fst
      = toolOk (.str "Successfully wrote to /tmp/x")) :=
  ⟨(C5_write_file remoteSucceeding "/tmp/x" "it's ok").1,
   ((C5_write_file remoteSucceeding "/tmp/x" "it's ok").2.2
      [("stdout", .str "ok"), ("stderr", .str ""), ("returncode", .num 0)] rfl).1.mpr rfl⟩

/-- Claim C6: a `tools/call` with a name that is none of the seven registered
tools returns `isError = true` with text exactly `Unknown tool: <name>`, and
the remote executor is never invoked (the call list is empty). -/
theorem C6_unknown_tool (remote : Remote) (name arguments : Json)
    (h1 : name.isStr "run_command" = false) (h2 : name.isStr "ssh_to_pi" = false)
    (h3 : name.isStr "health_check" = false) (h4 : name.isStr "list_files" = false)
    (h5 : name.isStr "read_file" = false) (h6 : name.isStr "write_file" = false)
    (h7 : name.isStr "get_system_info" = false) :
    handle_tool_call remote name arguments = (toolErr ("Unknown tool: " ++ pyStr name), []) := by
  unfold handle_tool_call handle_tool_call_body
  simp [h1, h2, h3, h4, h5, h6, h7]

/-- Witness for C6 at a concrete unknown name. -/
theorem C6_unknown_tool_witness :
    handle_tool_call remoteDown (.str "does_not_exist") (.obj [])
      = (toolErr "Unknown tool: does_not_exist", []) :=
  C6_unknown_tool remoteDown (.str "does_not_exist") (.obj []) rfl rfl rfl rfl rfl rfl rfl

/-- Claim C7: every response `process_mcp_message` produces carries exactly
one of the fields `result` and `error` — never both, never neither — across
all five method branches. -/
theorem C7_result_xor_error (remote : Remote) (data resp : Json) (calls : List RemoteCall)
    (h : process_mcp_message remote data = (.ok resp, calls)) :
    ((∃ v, resp.objGet? "result" = some v) ∧ resp.objGet? "error" = none) ∨
    ((∃ v, resp.objGet? "error" = some v) ∧ resp.objGet? "result" = none) := by
  unfold process_mcp_message at h
  rcases data with _ | b | n | s | elements | fields
  · simp [Json.pyGet] at h
  · simp [Json.pyGet] at h
  · simp [Json.pyGet] at h
  · simp [Json.pyGet] at h
  · simp [Json.pyGet] at h
  · simp only [Json.pyGet] at h
    rcases hpar : (lookupField fields "params").getD (.obj [])
        with _ | pb | pn | pstr | pel | pfields <;>
      rw [hpar] at h <;> simp only [] at h <;>
      (try split at h) <;> (try split at h) <;> (try split at h) <;> (try split at h) <;>
      injection h with h1 h2
    all_goals first
      | exact Except.noConfusion h1
      | (injection h1 with h1; subst h1;
         first
           | exact Or.inl ⟨⟨_, rfl⟩, rfl⟩
           | exact Or.inr ⟨⟨_, rfl⟩, rfl⟩)

/-- Witness for C7 at a concrete request (`notifications/initialized`): the
response has a `result` field and no `error` field. -/
theorem C7_result_xor_error_witness :
    ((∃ v, Json.objGet? (.obj [("jsonrpc", .str "2.0"), ("id", .num 1), ("result", .obj [])])
        "result" = some v) ∧
      Json.objGet? (.obj [("jsonrpc", .str "2.0"), ("id", .num 1), ("result", .obj [])])
        "error" = none) ∨
    ((∃ v, Json.objGet? (.obj [("jsonrpc", .str "2.0"), ("id", .num 1), ("result", .obj [])])
        "error" = some v) ∧
      Json.objGet? (.obj [("jsonrpc", .str "2.0"), ("id", .num 1), ("result", .obj [])])
        "result" = none) :=
  C7_result_xor_error remoteDown (.obj [("method", .str "notifications/initialized")])
    (.obj [("jsonrpc", .str "2.0"), ("id", .num 1), ("result", .obj [])]) [] rfl

/-- Claim C8: for a `tools/call` request whose params is a mapping the
dispatcher always answers with a JSON-RPC `result` (the tool outcome as
data) — `handle_tool_call` never raises — and every exception of the body is
converted to `isError = true` with text `Error: <message>`. -/
theorem C8_tool_faults_contained (remote : Remote) (fs ps : List (String × Json))
    (hm : lookupField fs "method" = some (.str "tools/call"))
    (hp : lookupField fs "params" = some (.obj ps)) :
    process_mcp_message remote (.obj fs)
      = (.ok (.obj [("jsonrpc", .str "2.0"),
                    ("id", (lookupField fs "id").getD (.num 1)),
                    ("result", (handle_tool_call remote ((lookupField ps "name").getD (.str ""))
                                  ((lookupField ps "arguments").getD (.obj []))).fst)]),
         (handle_tool_call remote ((lookupField ps "name").getD (.str ""))
            ((lookupField ps "arguments").getD (.obj []))).snd) ∧
    (∀ (name arguments : Json) (e : String) (calls : List RemoteCall),
      handle_tool_call_body remote name arguments = (.error e, calls) →
      handle_tool_call remote name arguments = (toolErr ("Error: " ++ e), calls)) := by
  refine ⟨tools_call_dispatch remote fs ps hm hp, ?_⟩
  intro name arguments e calls hbody
  unfold handle_tool_call
  rw [hbody]

/-- Witness for C8 at a concrete input: a `tools/call` of run_command with no
arguments (the KeyError on `command` is converted to `Error: 'command'`
inside a successful JSON-RPC result). -/
theorem C8_tool_faults_contained_witness :
    process_mcp_message remoteDown
        (.obj [("method", .str "tools/call"), ("params", .obj [("name", .str "run_command")])])
      = (.ok (.obj [("jsonrpc", .str "2.0"), ("id", .num 1),
                    ("result", toolErr "Error: 'command'")]), []) :=
  (C8_tool_faults_contained remoteDown
      [("method", .str "tools/call"), ("params", .obj [("name", .str "run_command")])]
      [("name", .str "run_command")] rfl rfl).1

/-- Claim C9 (implicit): `read_file` with `lines` present and equal to 0
behaves exactly like the absent case because of the truthiness test — the
synthesized command is `cat '<path>'`, not `head -n 0 '<path>'`. -/
theorem C9_lines_zero_is_cat (remote : Remote) (p : String) :
    handle_tool_call remote (.str "read_file") (.obj [("path", .str p), ("lines", .num 0)])
      = handle_tool_call remote (.str "read_file") (.obj [("path", .str p)]) ∧
    (handle_tool_call remote (.str "read_file")
        (.obj [("path", .str p), ("lines", .num 0)])).snd
      = [runCall (.str ("cat '" ++ p ++ "'"))] :=
  ⟨rfl, rfl⟩

/-- Claim C10 (implicit): a `tools/call` whose params mapping has no `name`
key dispatches with the empty string and yields a successful JSON-RPC result
whose content is the `isError = true` text `Unknown tool: ` — no protocol
error object, and no remote call. -/
theorem C10_missing_name_unknown_tool (remote : Remote) (fs ps : List (String × Json))
    (hm : lookupField fs "method" = some (.str "tools/call"))
    (hp : lookupField fs "params" = some (.obj ps))
    (hn : lookupField ps "name" = none) :
    process_mcp_message remote (.obj fs)
      = (.ok (.obj [("jsonrpc", .str "2.0"),
                    ("id", (lookupField fs "id").getD (.num 1)),
                    ("result", toolErr "Unknown tool: ")]), []) := by
  rw [tools_call_dispatch remote fs ps hm hp, hn]
  rfl

/-- Witness for C10 at a concrete input: `tools/call` with empty params. -/
theorem C10_missing_name_unknown_tool_witness :
    process_mcp_message remoteDown (.obj [("method", .str "tools/call"), ("params", .obj [])])
      = (.ok (.obj [("jsonrpc", .str "2.0"), ("id", .num 1),
                    ("result", toolErr "Unknown tool: ")]), []) :=
  C10_missing_name_unknown_tool remoteDown
    [("method", .str "tools/call"), ("params", .obj [])] [] rfl rfl rfl
